import Mathlib

/-!
Shallow embedding of the doorbell event processing pipeline of
`backend/services/firebaseService.js` (class `FirebaseService`), together
with the visitor authorization model of `backend/models/Visitor.js`.

External collaborators (Firebase RTDB, axios HTTP, MongoDB/Cosmos, FCM)
are modelled as an environment record supplying the outcome of each
external call; the orchestrator's own control flow is translated
statement by statement from the source.
-/

namespace SmartGhanti

/-- JavaScript truthiness of an optional string: `undefined`/`null` and the
empty string are falsy, every other string is truthy. -/
def truthyS : Option String → Bool
  | none => false
  | some s => !(s = "")

/-- JavaScript `s || d` for a string `s` known to be present:
the empty string falls back to the default. -/
def jsOrStr (s d : String) : String :=
  if s = "" then d else s

/-- JavaScript `o || d` where `o` may be `undefined`. -/
def jsOr (o : Option String) (d : String) : String :=
  match o with
  | none => d
  | some s => jsOrStr s d

/-- Does `hay` begin with `needle`? (helper for substring containment). -/
def beginsWith : List Char → List Char → Bool
  | [], _ => true
  | _ :: _, [] => false
  | c :: cs, d :: ds => c = d && beginsWith cs ds

/-- Does `hay` contain `needle` as a contiguous sublist?
Models JavaScript `String.prototype.includes`. -/
def listIncludes : List Char → List Char → Bool
  | [], needle => beginsWith needle []
  | c :: rest, needle => beginsWith needle (c :: rest) || listIncludes rest needle

/-- JavaScript `s.includes(sub)`. -/
def includesStr (s sub : String) : Bool :=
  listIncludes s.data sub.data

/-- Lower-case a character list (the `i` flag of `new RegExp(name, 'i')`). -/
def lowerChars (cs : List Char) : List Char :=
  cs.map Char.toLower

/-- One atom of the modelled regular-expression subset: a literal character
or the wildcard `.`. -/
inductive RAtom where
  | lit (c : Char)
  | dot
deriving Repr, DecidableEq

/-- A parsed pattern: each atom paired with whether it carries a postfix `*`. -/
abbrev RPat := List (RAtom × Bool)

/-- Parse the modelled subset of ECMAScript `RegExp` source: literal
characters, the wildcard `.`, and a postfix `*`. A leading `*` (nothing to
repeat) is a syntax error, as in `new RegExp("*")`; the other
metacharacters (`\ ( ) [ ] { } + ? | ^ $`) are outside the modelled subset
and are conservatively treated as parse failures (`unsupportedMeta`). -/
def unsupportedMeta (c : Char) : Bool :=
  c = '\\' || c = '(' || c = ')' || c = '[' || c = ']' ||
    c = '{' || c = '}' || c = '+' || c = '?' || c = '|' ||
    c = '^' || c = '$'

/-- The atom denoted by a supported pattern character. -/
def atomOf (c : Char) : RAtom :=
  if c = '.' then .dot else .lit c

def parseRegexAux : List Char → Option RPat
  | [] => some []
  | '*' :: _ => none
  | c :: '*' :: rest =>
    if unsupportedMeta c then none
    else (parseRegexAux rest).map (fun p => (atomOf c, true) :: p)
  | c :: rest =>
    if unsupportedMeta c then none
    else (parseRegexAux rest).map (fun p => (atomOf c, false) :: p)

/-- `new RegExp(pat, 'i')`: parse after lower-casing (the modelled subset's
case-insensitivity); `none` models the constructor throwing `SyntaxError`. -/
def parseRegexI (pat : String) : Option RPat :=
  parseRegexAux (lowerChars pat.data)

/-- Does one atom match one (already lower-cased) character? -/
def atomMatch : RAtom → Char → Bool
  | .lit c, d => c = d
  | .dot, _ => true

/-- The suffixes a starred atom can leave behind: it consumes any initial
run of characters each matching the atom. -/
def starSuffixes (a : RAtom) : List Char → List (List Char)
  | [] => [[]]
  | c :: cs => (c :: cs) :: (if atomMatch a c then starSuffixes a cs else [])

/-- Match a pattern against a prefix of the character list (anchored at the
start, may leave a suffix unconsumed). -/
def matchHere : RPat → List Char → Bool
  | [], _ => true
  | (a, false) :: ps, cs =>
    match cs with
    | [] => false
    | c :: cs2 => atomMatch a c && matchHere ps cs2
  | (a, true) :: ps, cs => (starSuffixes a cs).any (fun rest => matchHere ps rest)

/-- Unanchored search: does the pattern match starting at any position?
(MongoDB `$regex` substring semantics.) -/
def searchMatch (p : RPat) : List Char → Bool
  | [] => matchHere p []
  | c :: cs => matchHere p (c :: cs) || searchMatch p cs

/-- Test a parsed case-insensitive pattern against a subject string. -/
def rpatTest (p : RPat) (s : String) : Bool :=
  searchMatch p (lowerChars s.data)

/-- `new RegExp(pat, 'i').test(s)` under substring semantics; `none` when
the pattern is invalid. -/
def regexTest (pat s : String) : Option Bool :=
  (parseRegexI pat).map (fun p => rpatTest p s)

/-- A visitor document of `backend/models/Visitor.js` (`visitorSchema`),
restricted to the fields the pipeline reads or writes. `lastVisit` is an
optional instant (epoch milliseconds). -/
structure Visitor where
  name : String
  isAuthorized : Bool
  visitCount : Nat
  lastVisit : Option Nat
deriving Repr, DecidableEq

/-- `visitor.visitCount += 1; visitor.lastVisit = new Date()` before
`visitor.save()` (firebaseService.js lines 173-175). -/
def bumpVisit (now : Nat) (v : Visitor) : Visitor :=
  { v with visitCount := v.visitCount + 1, lastVisit := some now }

/-- `Visitor.findOne({name: {$regex: re}, isAuthorized: true})` over an
explicit document list: the first document (with its index) whose name
matches the parsed pattern and whose `isAuthorized` flag is set. -/
def findOneAuth : List Visitor → RPat → Option (Nat × Visitor)
  | [], _ => none
  | v :: vs, p =>
    if rpatTest p v.name && v.isAuthorized then some (0, v)
    else (findOneAuth vs p).map (fun iw => (iw.1 + 1, iw.2))

/-- The oracle's response shape
`{success, authenticated, message, recognized_names}`; `message` may be
absent and `recognized_names` absent is folded into `[]`
(`recognitionResult.recognized_names || []`). -/
structure RecognitionResponse where
  success : Bool
  authenticated : Bool
  message : Option String
  recognized_names : List String
deriving Repr, DecidableEq

/-- The synthetic response for a null image (firebaseService.js 117-124). -/
def noImageResponse : RecognitionResponse :=
  { success := false, authenticated := false,
    message := some "unclassified - no image", recognized_names := [] }

/-- The synthetic response when the oracle call throws
(firebaseService.js 135-143). -/
def serviceUnavailableResponse : RecognitionResponse :=
  { success := false, authenticated := false,
    message := some "unclassified - service unavailable", recognized_names := [] }

/-- `callFacialRecognition(base64Image)`: a falsy image short-circuits to
`noImageResponse` with no HTTP call; otherwise the oracle's answer is
returned, any thrown error being caught and mapped to
`serviceUnavailableResponse`. The boolean records whether the HTTP call to
the oracle was attempted. -/
def callFacialRecognition (img : Option String)
    (oracle : Except Unit RecognitionResponse) : Bool × RecognitionResponse :=
  if truthyS img = false then (false, noImageResponse)
  else
    match oracle with
    | .ok r => (true, r)
    | .error _ => (true, serviceUnavailableResponse)

/-- `recognitionResult.message?.includes('unclassified')` with optional
chaining: an absent message is falsy. -/
def msgHasUnclassified : Option String → Bool
  | none => false
  | some m => includesStr m "unclassified"

/-- The value returned by `validateVisitor`. -/
structure ValidationResult where
  isAuthorized : Bool
  visitorName : String
deriving Repr, DecidableEq

/-- The candidate loop of `validateVisitor` (firebaseService.js 165-182)
inside its `try`: for each name, build `new RegExp(name,'i')` (an invalid
pattern throws), run `findOne` against the store (a down store throws),
and on the first authorized hit save the bumped visitor and return its
canonical name. `.error` is the thrown-exception path; `.ok none` means
the loop fell through with no authorized match. -/
def validateLoop (dbUp : Bool) (now : Nat) (store : List Visitor) :
    List String → Except Unit (Option (List Visitor × ValidationResult))
  | [] => .ok none
  | n :: rest =>
    match parseRegexI n with
    | none => .error ()
    | some p =>
      if dbUp then
        match findOneAuth store p with
        | some iv =>
          .ok (some (store.set iv.1 (bumpVisit now iv.2),
            { isAuthorized := true, visitorName := iv.2.name }))
        | none => validateLoop dbUp now store rest
      else .error ()

/-- `validateVisitor(recognitionResult)` (firebaseService.js 146-198),
returning the possibly updated store together with the validation result. -/
def validateVisitor (dbUp : Bool) (now : Nat) (store : List Visitor)
    (r : RecognitionResponse) : List Visitor × ValidationResult :=
  if !r.success || !r.authenticated then
    (store,
      { isAuthorized := false,
        visitorName :=
          if msgHasUnclassified r.message then "unclassified" else "unknown" })
  else
    let recognizedNames := r.recognized_names
    if recognizedNames.isEmpty then
      (store, { isAuthorized := false, visitorName := "unknown" })
    else
      match validateLoop dbUp now store recognizedNames with
      | .ok (some res) => res
      | .ok none =>
        (store, { isAuthorized := false, visitorName := recognizedNames.headD "" })
      | .error _ =>
        (store,
          { isAuthorized := false,
            visitorName := jsOrStr (recognizedNames.headD "") "unknown" })

/-- The subset of axios request options the pipeline passes. -/
structure AxiosConfig where
  timeout : Option Nat
  responseType : Option String
  contentTypeJson : Bool
deriving Repr, DecidableEq

/-- The options object of the image fetch
`axios.get(imageUrl, { responseType: 'arraybuffer' })`
(firebaseService.js line 79): no timeout is set. -/
def imageFetchConfig : AxiosConfig :=
  { timeout := none, responseType := some "arraybuffer", contentTypeJson := false }

/-- The options object of the oracle call (firebaseService.js 127-132):
`{ timeout: 30000, headers: {Content-Type: application/json} }`. -/
def recognizeCallConfig : AxiosConfig :=
  { timeout := some 30000, responseType := none, contentTypeJson := true }

/-- One doorbell event's data as destructured on firebaseService.js line 67,
plus the `processed` claim flag read on line 44. `createdAt` is kept as an
optional epoch value; an absent field is `none`. -/
structure EventData where
  image : Option String
  imageUrl : Option String
  timestamp : Option String
  deviceId : Option String
  createdAt : Option Nat
  messageType : Option String
  processed : Bool
deriving Repr, DecidableEq

/-- The environment of one run: outcomes of the external calls and the
authorization store contents. `now` is the processing instant. -/
structure Env where
  fetchResult : Except Unit String
  oracleResult : Except Unit RecognitionResponse
  dbUp : Bool
  store : List Visitor
  sinkOk : Bool
  now : Nat

/-- Models `new Date(n).toISOString()` for a numeric epoch value as an
injective rendering of the number. -/
def isoOfMillis (n : Nat) : String :=
  "epoch-ms:" ++ toString n

/-- `new Date(createdAt).toISOString()`: an absent `createdAt` gives an
Invalid Date whose `toISOString()` throws a `RangeError` (`.error`). -/
def toISOStringOfCreatedAt : Option Nat → Except Unit String
  | none => .error ()
  | some n => .ok (isoOfMillis n)

/-- `timestamp || new Date(createdAt).toISOString()` (line 71). -/
def actualTimestampOf (ev : EventData) : Except Unit String :=
  if truthyS ev.timestamp then .ok (ev.timestamp.getD "")
  else toISOStringOfCreatedAt ev.createdAt

/-- Image acquisition (firebaseService.js 73-88): inline image passes
through; else a truthy URL is fetched (a failed fetch yields `null`); else
`null`. The boolean records whether a fetch was attempted. -/
def acquireImage (ev : EventData) (env : Env) : Bool × Option String :=
  if truthyS ev.image then (false, ev.image)
  else if truthyS ev.imageUrl then
    match env.fetchResult with
    | .ok b64 => (true, some b64)
    | .error _ => (true, none)
  else (false, none)

/-- The persisted `finalResult` shape written to
`/recognition_results/{eventId}` (firebaseService.js 97-106). -/
structure RecognitionResult where
  deviceId : String
  timestamp : String
  originalTimestamp : String
  recognized : Bool
  name : String
  authorized : Bool
  imageReference : Option String
  messageType : String
deriving Repr, DecidableEq

/-- The FCM message built by `sendPushNotification`
(firebaseService.js 218-248), flattened to its observable content. -/
structure FcmMessage where
  topic : String
  title : String
  body : String
  dataEventId : String
  dataName : String
  dataAuthorized : String
  dataTimestamp : String
deriving Repr, DecidableEq

/-- Build the FCM message from the persisted result. -/
def buildFcmMessage (eventId : String) (r : RecognitionResult) : FcmMessage :=
  { topic := "doorbell_notifications",
    title := if r.authorized then "Welcome " ++ r.name ++ "!" else "Visitor: " ++ r.name,
    body := if r.authorized then "Authorized visitor " ++ r.name ++ " at your door"
            else r.name ++ " detected at your doorbell",
    dataEventId := eventId,
    dataName := r.name,
    dataAuthorized := if r.authorized then "true" else "false",
    dataTimestamp := r.timestamp }

/-- Observable outcome of one `processDoorbellEvent` run: whether it threw,
which external effects happened, what was persisted and dispatched, and the
final authorization store. -/
structure RunOutcome where
  err : Bool
  fetchAttempted : Bool
  oracleCalled : Bool
  written : Option RecognitionResult
  notified : Option FcmMessage
  store : List Visitor
deriving Repr, DecidableEq

/-- Assemble the `finalResult` object (firebaseService.js 97-106). -/
def buildFinalResult (eventId : String) (ev : EventData) (env : Env)
    (actualTimestamp : String) (processedImage : Option String)
    (recognitionResult : RecognitionResponse)
    (validationResult : ValidationResult) : RecognitionResult :=
  { deviceId := jsOr ev.deviceId "esp32-doorbell",
    timestamp := isoOfMillis env.now,
    originalTimestamp := actualTimestamp,
    recognized := recognitionResult.success && recognitionResult.authenticated,
    name := jsOrStr validationResult.visitorName "unknown",
    authorized := validationResult.isAuthorized || false,
    imageReference := if truthyS processedImage then some ("event_" ++ eventId) else none,
    messageType := jsOr ev.messageType "motion_detection" }

/-- The stages after the timestamp computation succeeded: acquire the
image, call the oracle, validate against the store, write the result (a
failed write throws, `writeRecognitionResult` rethrows on line 209), then
dispatch the notification (whose own failures are caught and swallowed,
lines 254-257). -/
def runStages (eventId : String) (ev : EventData) (env : Env)
    (actualTimestamp : String) : RunOutcome :=
  let acq := acquireImage ev env
  let call := callFacialRecognition acq.2 env.oracleResult
  let validated := validateVisitor env.dbUp env.now env.store call.2
  let finalResult := buildFinalResult eventId ev env actualTimestamp acq.2 call.2 validated.2
  if env.sinkOk then
    { err := false, fetchAttempted := acq.1, oracleCalled := call.1,
      written := some finalResult,
      notified := some (buildFcmMessage eventId finalResult),
      store := validated.1 }
  else
    { err := true, fetchAttempted := acq.1, oracleCalled := call.1,
      written := none, notified := none, store := validated.1 }

/-- `processDoorbellEvent(eventId, eventData)` (firebaseService.js 64-114):
computing the timestamp on line 71 may throw (aborting the run before the
image is examined); otherwise the remaining stages run in order. -/
def processDoorbellEvent (eventId : String) (ev : EventData) (env : Env) : RunOutcome :=
  match actualTimestampOf ev with
  | .error _ =>
    { err := true, fetchAttempted := false, oracleCalled := false,
      written := none, notified := none, store := env.store }
  | .ok actualTimestamp => runStages eventId ev env actualTimestamp

/-- Observable outcome of the `child_added` handler for one delivered
event: the final claim flag, how many times the handler wrote the claim
flag, and the run's outcome when a run happened. -/
structure ListenerOutcome where
  claimed : Bool
  claimWrites : Nat
  run : Option RunOutcome
deriving Repr, DecidableEq

/-- The `child_added` callback of `startEventListener`
(firebaseService.js 39-59): skip when `processed === true`; otherwise set
the claim, run the pipeline, and on a thrown error reset the claim to
`false`. -/
def handleChildAdded (eventId : String) (ev : EventData) (env : Env) : ListenerOutcome :=
  if ev.processed then
    { claimed := true, claimWrites := 0, run := none }
  else
    let r := processDoorbellEvent eventId ev env
    if r.err then
      { claimed := false, claimWrites := 2, run := some r }
    else
      { claimed := true, claimWrites := 1, run := some r }

/-! ### Helper lemmas -/

lemma actualTimestampOf_truthy (ev : EventData) (h : truthyS ev.timestamp = true) :
    actualTimestampOf ev = .ok (ev.timestamp.getD "") := by
  simp [actualTimestampOf, h]

lemma processDoorbellEvent_ok (eventId : String) (ev : EventData) (env : Env)
    (t : String) (h : actualTimestampOf ev = .ok t) :
    processDoorbellEvent eventId ev env = runStages eventId ev env t := by
  simp [processDoorbellEvent, h]

lemma callFacialRecognition_error (img : Option String) (h : truthyS img = true) :
    callFacialRecognition img (Except.error ()) = (true, serviceUnavailableResponse) := by
  simp [callFacialRecognition, h]

lemma callFacialRecognition_some (img : Option String) (r : RecognitionResponse)
    (h : truthyS img = true) :
    callFacialRecognition img (Except.ok r) = (true, r) := by
  simp [callFacialRecognition, h]

lemma callFacialRecognition_null (oracle : Except Unit RecognitionResponse) :
    callFacialRecognition none oracle = (false, noImageResponse) := by
  simp [callFacialRecognition, truthyS]

lemma validateVisitor_notAuth (dbUp : Bool) (now : Nat) (store : List Visitor)
    (r : RecognitionResponse) (h : (!r.success || !r.authenticated) = true) :
    validateVisitor dbUp now store r =
      (store,
        { isAuthorized := false,
          visitorName :=
            if msgHasUnclassified r.message then "unclassified" else "unknown" }) := by
  simp only [validateVisitor, h, if_true]

lemma validateVisitor_noNames (dbUp : Bool) (now : Nat) (store : List Visitor)
    (r : RecognitionResponse) (h1 : r.success = true) (h2 : r.authenticated = true)
    (h3 : r.recognized_names = []) :
    validateVisitor dbUp now store r =
      (store, { isAuthorized := false, visitorName := "unknown" }) := by
  simp [validateVisitor, h1, h2, h3]

lemma validateLoop_dbDown (now : Nat) (store : List Visitor) (n0 : String)
    (rest : List String) :
    validateLoop false now store (n0 :: rest) = .error () := by
  cases h : parseRegexI n0 <;> simp [validateLoop, h]

lemma validateVisitor_dbDown (now : Nat) (store : List Visitor)
    (r : RecognitionResponse) (n0 : String) (rest : List String)
    (h1 : r.success = true) (h2 : r.authenticated = true)
    (h3 : r.recognized_names = n0 :: rest) :
    validateVisitor false now store r =
      (store, { isAuthorized := false, visitorName := jsOrStr n0 "unknown" }) := by
  simp [validateVisitor, h1, h2, h3, validateLoop_dbDown]

lemma validateLoop_invalidHead (dbUp : Bool) (now : Nat) (store : List Visitor)
    (n0 : String) (rest : List String) (h : parseRegexI n0 = none) :
    validateLoop dbUp now store (n0 :: rest) = .error () := by
  simp [validateLoop, h]

lemma validateLoop_found (now : Nat) (store : List Visitor) (n : String)
    (rest : List String) (p : RPat) (i : Nat) (v : Visitor)
    (hp : parseRegexI n = some p) (hf : findOneAuth store p = some (i, v)) :
    validateLoop true now store (n :: rest) =
      .ok (some (store.set i (bumpVisit now v),
        { isAuthorized := true, visitorName := v.name })) := by
  simp [validateLoop, hp, hf]

lemma validateLoop_skip (now : Nat) (store : List Visitor) (pre ns : List String)
    (hpre : ∀ m ∈ pre, ∃ q, parseRegexI m = some q ∧ findOneAuth store q = none) :
    validateLoop true now store (pre ++ ns) = validateLoop true now store ns := by
  induction pre with
  | nil => rfl
  | cons m pre2 ih =>
    obtain ⟨q, hq, hfq⟩ := hpre m (by simp)
    have ih2 := ih (fun m2 hm2 => hpre m2 (by simp [hm2]))
    simp [validateLoop, hq, hfq, ih2]

lemma findOneAuth_get (p : RPat) :
    ∀ (store : List Visitor) (i : Nat) (v : Visitor),
      findOneAuth store p = some (i, v) → store[i]? = some v := by
  intro store
  induction store with
  | nil => intro i v h; simp [findOneAuth] at h
  | cons w ws ih =>
    intro i v h
    rw [findOneAuth] at h
    by_cases hw : (rpatTest p w.name && w.isAuthorized) = true
    · rw [if_pos hw] at h
      injection h with h2
      injection h2 with hi hv
      subst hi
      subst hv
      simp
    · rw [if_neg hw] at h
      cases hfw : findOneAuth ws p with
      | none => rw [hfw] at h; simp at h
      | some jw =>
        rw [hfw] at h
        simp only [Option.map_some'] at h
        injection h with h2
        have hi : i = jw.1 + 1 := by
          have := congrArg Prod.fst h2
          simpa using this.symm
        have hv : v = jw.2 := by
          have := congrArg Prod.snd h2
          simpa using this.symm
        subst hi
        subst hv
        simpa using ih jw.1 jw.2 (by rw [hfw])

lemma processErr_no_write (eventId : String) (ev : EventData) (env : Env)
    (he : (processDoorbellEvent eventId ev env).err = true) :
    (processDoorbellEvent eventId ev env).written = none ∧
    (processDoorbellEvent eventId ev env).notified = none := by
  cases h : actualTimestampOf ev with
  | error e => simp [processDoorbellEvent, h]
  | ok t =>
    rw [processDoorbellEvent_ok eventId ev env t h] at he ⊢
    cases hs : env.sinkOk with
    | true => exfalso; simp [runStages, hs] at he
    | false => simp [runStages, hs]

/-! ### Fixtures for the witnesses -/

/-- A sample authorized visitor document. -/
def aliVisitor : Visitor :=
  { name := "Ali", isAuthorized := true, visitCount := 4, lastVisit := none }

/-- A sample doorbell event with an inline image. -/
def sampleEvent : EventData :=
  { image := some "imgdata", imageUrl := none,
    timestamp := some "2024-01-01T00:00:00Z", deviceId := some "esp32-1",
    createdAt := some 1700000000000, messageType := some "ring",
    processed := false }

/-- A sample successful oracle response naming the sample visitor. -/
def aliResp : RecognitionResponse :=
  { success := true, authenticated := true, message := none,
    recognized_names := ["Ali"] }

/-- A sample healthy environment whose oracle names the sample visitor. -/
def sampleEnv : Env :=
  { fetchResult := .error (), oracleResult := .ok aliResp,
    dbUp := true, store := [aliVisitor], sinkOk := true, now := 99 }

/-- The sample environment with the result sink unreachable. -/
def envSinkDown : Env := { sampleEnv with sinkOk := false }

/-! ### The claims -/

/-- Claim C3: a delivered event whose claim state is already `claimed`
(`processed === true`) causes no work at all: no claim write, no run (hence
no image fetch, no oracle call, no result write, no notification), and the
claim state is left as it was. -/
theorem claim_C3_redelivery_noop (eventId : String) (ev : EventData) (env : Env)
    (h : ev.processed = true) :
    handleChildAdded eventId ev env =
      { claimed := true, claimWrites := 0, run := none } := by
  simp [handleChildAdded, h]

theorem claim_C3_witness :
    ({ sampleEvent with processed := true } : EventData).processed = true ∧
    handleChildAdded "e1" { sampleEvent with processed := true } sampleEnv =
      { claimed := true, claimWrites := 0, run := none } :=
  ⟨rfl, claim_C3_redelivery_noop "e1" { sampleEvent with processed := true } sampleEnv rfl⟩

/-- Claim C4: when the per-event run throws (in particular when the Result
Sink write fails), the listener resets the claim to `unclaimed`, and the
failed run persisted nothing and dispatched no notification. -/
theorem claim_C4_failed_run_resets_claim (eventId : String) (ev : EventData) (env : Env)
    (hp : ev.processed = false)
    (he : (processDoorbellEvent eventId ev env).err = true) :
    handleChildAdded eventId ev env =
      { claimed := false, claimWrites := 2,
        run := some (processDoorbellEvent eventId ev env) } ∧
    (processDoorbellEvent eventId ev env).written = none ∧
    (processDoorbellEvent eventId ev env).notified = none := by
  refine ⟨?_, processErr_no_write eventId ev env he⟩
  simp [handleChildAdded, hp, he]

theorem claim_C4_witness :
    (sampleEvent.processed = false ∧
      (processDoorbellEvent "e1" sampleEvent envSinkDown).err = true) ∧
    (handleChildAdded "e1" sampleEvent envSinkDown =
      { claimed := false, claimWrites := 2,
        run := some (processDoorbellEvent "e1" sampleEvent envSinkDown) } ∧
     (processDoorbellEvent "e1" sampleEvent envSinkDown).written = none ∧
     (processDoorbellEvent "e1" sampleEvent envSinkDown).notified = none) :=
  ⟨⟨rfl, by decide⟩,
    claim_C4_failed_run_resets_claim "e1" sampleEvent envSinkDown rfl (by decide)⟩

/-- Claim C10: an event carrying neither `timestamp` nor `createdAt` throws
while computing the timestamp (line 71), before the image is examined or
the oracle is called; the listener resets the claim, and no
RecognitionResult is written. -/
theorem claim_C10_missing_timestamps_throw (eventId : String) (ev : EventData) (env : Env)
    (ht : ev.timestamp = none) (hc : ev.createdAt = none) (hp : ev.processed = false) :
    processDoorbellEvent eventId ev env =
      { err := true, fetchAttempted := false, oracleCalled := false,
        written := none, notified := none, store := env.store } ∧
    handleChildAdded eventId ev env =
      { claimed := false, claimWrites := 2,
        run := some
          { err := true, fetchAttempted := false, oracleCalled := false,
            written := none, notified := none, store := env.store } } := by
  have hts : actualTimestampOf ev = .error () := by
    simp [actualTimestampOf, ht, truthyS, toISOStringOfCreatedAt, hc]
  have h1 : processDoorbellEvent eventId ev env =
      { err := true, fetchAttempted := false, oracleCalled := false,
        written := none, notified := none, store := env.store } := by
    simp [processDoorbellEvent, hts]
  exact ⟨h1, by simp [handleChildAdded, hp, h1]⟩

theorem claim_C10_witness :
    (({ sampleEvent with timestamp := none, createdAt := none } : EventData).timestamp = none ∧
     ({ sampleEvent with timestamp := none, createdAt := none } : EventData).createdAt = none ∧
     ({ sampleEvent with timestamp := none, createdAt := none } : EventData).processed = false) ∧
    processDoorbellEvent "e1" { sampleEvent with timestamp := none, createdAt := none } sampleEnv =
      { err := true, fetchAttempted := false, oracleCalled := false,
        written := none, notified := none, store := sampleEnv.store } :=
  ⟨⟨rfl, rfl, rfl⟩,
    (claim_C10_missing_timestamps_throw "e1"
      { sampleEvent with timestamp := none, createdAt := none } sampleEnv rfl rfl rfl).1⟩

lemma jsOrStr_ne (s d : String) (h : ¬ s = "") : jsOrStr s d = s := by
  simp [jsOrStr, h]

/-- Claim C2: an oracle fault on an attempted call is caught and becomes a
`success=false` response (never a thrown error), the persisted result is
`recognized=false, name="unclassified", authorized=false`, and the
notification is still dispatched. -/
theorem claim_C2_oracle_fault_handled (eventId : String) (ev : EventData) (env : Env)
    (hts : truthyS ev.timestamp = true)
    (himg : truthyS (acquireImage ev env).2 = true)
    (hor : env.oracleResult = Except.error ())
    (hsink : env.sinkOk = true) :
    callFacialRecognition (acquireImage ev env).2 env.oracleResult =
      (true, serviceUnavailableResponse) ∧
    (processDoorbellEvent eventId ev env).err = false ∧
    (processDoorbellEvent eventId ev env).oracleCalled = true ∧
    (processDoorbellEvent eventId ev env).written.map (fun r => r.recognized) = some false ∧
    (processDoorbellEvent eventId ev env).written.map (fun r => r.name) = some "unclassified" ∧
    (processDoorbellEvent eventId ev env).written.map (fun r => r.authorized) = some false ∧
    (processDoorbellEvent eventId ev env).notified.isSome = true := by
  have hcall : callFacialRecognition (acquireImage ev env).2 env.oracleResult =
      (true, serviceUnavailableResponse) := by
    rw [hor]; exact callFacialRecognition_error _ himg
  have hvv : validateVisitor env.dbUp env.now env.store serviceUnavailableResponse =
      (env.store, { isAuthorized := false, visitorName := "unclassified" }) := by
    rw [validateVisitor_notAuth _ _ _ _ (by decide)]
    simp only [show msgHasUnclassified serviceUnavailableResponse.message = true from by decide,
      if_true]
  rw [processDoorbellEvent_ok eventId ev env _ (actualTimestampOf_truthy ev hts)]
  refine ⟨hcall, ?_⟩
  simp [runStages, hcall, hvv, hsink, buildFinalResult,
    show serviceUnavailableResponse.success = false from rfl,
    jsOrStr_ne "unclassified" "unknown" (by decide)]

theorem claim_C2_witness :
    (truthyS sampleEvent.timestamp = true ∧
      truthyS (acquireImage sampleEvent { sampleEnv with oracleResult := .error () }).2 = true ∧
      ({ sampleEnv with oracleResult := .error () } : Env).sinkOk = true) ∧
    (processDoorbellEvent "e1" sampleEvent
        { sampleEnv with oracleResult := .error () }).written.map (fun r => r.name) =
      some "unclassified" :=
  ⟨⟨by decide, by decide, rfl⟩,
    (claim_C2_oracle_fault_handled "e1" sampleEvent
      { sampleEnv with oracleResult := .error () } (by decide) (by decide) rfl rfl).2.2.2.2.1⟩

/-- Claim C6: with neither an inline image nor an image URL, no oracle call
(and no fetch) is attempted, the recognition stage yields the synthetic
no-image failure response, and a terminal
`recognized=false, name="unclassified", authorized=false` result is still
persisted and notified. -/
theorem claim_C6_no_image_skips_oracle (eventId : String) (ev : EventData) (env : Env)
    (hi : truthyS ev.image = false) (hu : truthyS ev.imageUrl = false)
    (hts : truthyS ev.timestamp = true) (hsink : env.sinkOk = true) :
    acquireImage ev env = (false, none) ∧
    callFacialRecognition (acquireImage ev env).2 env.oracleResult =
      (false, noImageResponse) ∧
    noImageResponse.success = false ∧
    noImageResponse.message = some "unclassified - no image" ∧
    (processDoorbellEvent eventId ev env).err = false ∧
    (processDoorbellEvent eventId ev env).oracleCalled = false ∧
    (processDoorbellEvent eventId ev env).fetchAttempted = false ∧
    (processDoorbellEvent eventId ev env).written.map (fun r => r.recognized) = some false ∧
    (processDoorbellEvent eventId ev env).written.map (fun r => r.name) = some "unclassified" ∧
    (processDoorbellEvent eventId ev env).written.map (fun r => r.authorized) = some false ∧
    (processDoorbellEvent eventId ev env).notified.isSome = true := by
  have hacq : acquireImage ev env = (false, none) := by
    simp [acquireImage, hi, hu]
  have hcall : callFacialRecognition (acquireImage ev env).2 env.oracleResult =
      (false, noImageResponse) := by
    rw [hacq]; exact callFacialRecognition_null env.oracleResult
  have hvv : validateVisitor env.dbUp env.now env.store noImageResponse =
      (env.store, { isAuthorized := false, visitorName := "unclassified" }) := by
    rw [validateVisitor_notAuth _ _ _ _ (by decide)]
    simp only [show msgHasUnclassified noImageResponse.message = true from by decide, if_true]
  rw [processDoorbellEvent_ok eventId ev env _ (actualTimestampOf_truthy ev hts)]
  refine ⟨hacq, hcall, rfl, rfl, ?_⟩
  simp [runStages, hacq, callFacialRecognition_null, hvv, hsink, buildFinalResult,
    show noImageResponse.success = false from rfl,
    jsOrStr_ne "unclassified" "unknown" (by decide), truthyS]

theorem claim_C6_witness :
    (truthyS ({ sampleEvent with image := none } : EventData).image = false ∧
      truthyS ({ sampleEvent with image := none } : EventData).imageUrl = false ∧
      truthyS ({ sampleEvent with image := none } : EventData).timestamp = true ∧
      sampleEnv.sinkOk = true) ∧
    ((processDoorbellEvent "e1" { sampleEvent with image := none } sampleEnv).oracleCalled = false ∧
      (processDoorbellEvent "e1" { sampleEvent with image := none } sampleEnv).written.map
        (fun r => r.name) = some "unclassified") :=
  ⟨⟨rfl, rfl, by decide, rfl⟩, by
    have h := claim_C6_no_image_skips_oracle "e1" { sampleEvent with image := none } sampleEnv
      rfl rfl (by decide) rfl
    exact ⟨h.2.2.2.2.2.1, h.2.2.2.2.2.2.2.2.1⟩⟩

/-- Claim C7: with a non-empty candidate list and the Authorization Store
failing during lookup, the pipeline does not fail: the result falls back
to the first candidate name with `authorized=false`, the store is left
unchanged, and persistence and notification still happen. -/
theorem claim_C7_store_error_fallback (eventId : String) (ev : EventData) (env : Env)
    (resp : RecognitionResponse) (n0 : String) (rest : List String)
    (hts : truthyS ev.timestamp = true)
    (himg : truthyS (acquireImage ev env).2 = true)
    (hor : env.oracleResult = Except.ok resp)
    (h1 : resp.success = true) (h2 : resp.authenticated = true)
    (h3 : resp.recognized_names = n0 :: rest)
    (hdb : env.dbUp = false)
    (hn0 : ¬ n0 = "")
    (hsink : env.sinkOk = true) :
    (processDoorbellEvent eventId ev env).err = false ∧
    (processDoorbellEvent eventId ev env).store = env.store ∧
    (processDoorbellEvent eventId ev env).written.map (fun r => r.name) = some n0 ∧
    (processDoorbellEvent eventId ev env).written.map (fun r => r.authorized) = some false ∧
    (processDoorbellEvent eventId ev env).notified.isSome = true := by
  have hcall : callFacialRecognition (acquireImage ev env).2 env.oracleResult =
      (true, resp) := by
    rw [hor]; exact callFacialRecognition_some _ resp himg
  have hvv : validateVisitor env.dbUp env.now env.store resp =
      (env.store, { isAuthorized := false, visitorName := n0 }) := by
    rw [hdb, validateVisitor_dbDown env.now env.store resp n0 rest h1 h2 h3,
      jsOrStr_ne n0 "unknown" hn0]
  rw [processDoorbellEvent_ok eventId ev env _ (actualTimestampOf_truthy ev hts)]
  simp [runStages, hcall, hvv, hsink, buildFinalResult, jsOrStr_ne n0 "unknown" hn0]

theorem claim_C7_witness :
    ((({ sampleEnv with dbUp := false } : Env).oracleResult = Except.ok aliResp) ∧
      ({ sampleEnv with dbUp := false } : Env).dbUp = false) ∧
    ((processDoorbellEvent "e1" sampleEvent { sampleEnv with dbUp := false }).store =
        ({ sampleEnv with dbUp := false } : Env).store ∧
      (processDoorbellEvent "e1" sampleEvent { sampleEnv with dbUp := false }).written.map
        (fun r => r.name) = some "Ali" ∧
      (processDoorbellEvent "e1" sampleEvent { sampleEnv with dbUp := false }).notified.isSome =
        true) :=
  ⟨⟨rfl, rfl⟩, by
    have h := claim_C7_store_error_fallback "e1" sampleEvent { sampleEnv with dbUp := false }
      aliResp "Ali" [] (by decide) (by decide) rfl rfl rfl rfl rfl (by decide) rfl
    exact ⟨h.2.1, h.2.2.1, h.2.2.2.2⟩⟩

/-- Claim C8 as stated is false on the code: the image fetch on
firebaseService.js line 79 passes only `responseType: 'arraybuffer'` and
sets no timeout at all, so not every external call carries a bounded
timeout. -/
theorem claim_C8_counterexample : ¬ (imageFetchConfig.timeout.isSome = true) := by
  decide

/-- Claim C8 amended: only the oracle call carries a bounded timeout
(30000 ms); the image fetch sets none, but a failed image fetch is still a
normal failure that yields a null image while the event produces a
persisted terminal result and a notification. -/
theorem claim_C8_amended_timeouts (eventId : String) (ev : EventData) (env : Env)
    (hi : truthyS ev.image = false) (hu : truthyS ev.imageUrl = true)
    (hf : env.fetchResult = Except.error ())
    (hts : truthyS ev.timestamp = true) (hsink : env.sinkOk = true) :
    recognizeCallConfig.timeout = some 30000 ∧
    imageFetchConfig.timeout = none ∧
    acquireImage ev env = (true, none) ∧
    (processDoorbellEvent eventId ev env).err = false ∧
    (processDoorbellEvent eventId ev env).written.isSome = true ∧
    (processDoorbellEvent eventId ev env).notified.isSome = true := by
  have hacq : acquireImage ev env = (true, none) := by
    simp [acquireImage, hi, hu, hf]
  have hcall : callFacialRecognition (acquireImage ev env).2 env.oracleResult =
      (false, noImageResponse) := by
    rw [hacq]
    exact callFacialRecognition_null env.oracleResult
  have hvv : validateVisitor env.dbUp env.now env.store noImageResponse =
      (env.store, { isAuthorized := false, visitorName := "unclassified" }) := by
    rw [validateVisitor_notAuth _ _ _ _ (by decide)]
    simp only [show msgHasUnclassified noImageResponse.message = true from by decide, if_true]
  rw [processDoorbellEvent_ok eventId ev env _ (actualTimestampOf_truthy ev hts)]
  refine ⟨rfl, rfl, hacq, ?_⟩
  simp [runStages, hacq, hcall, hvv, hsink]

theorem claim_C8_amended_witness :
    (truthyS ({ sampleEvent with image := none, imageUrl := some "http:u" } : EventData).image =
        false ∧
      truthyS ({ sampleEvent with image := none, imageUrl := some "http:u" } : EventData).imageUrl =
        true ∧
      sampleEnv.fetchResult = Except.error ()) ∧
    (recognizeCallConfig.timeout = some 30000 ∧
      (processDoorbellEvent "e1" { sampleEvent with image := none, imageUrl := some "http:u" }
          sampleEnv).written.isSome = true) :=
  ⟨⟨rfl, by decide, rfl⟩, by
    have h := claim_C8_amended_timeouts "e1"
      { sampleEvent with image := none, imageUrl := some "http:u" } sampleEnv
      rfl (by decide) rfl (by decide) rfl
    exact ⟨h.1, h.2.2.2.2.1⟩⟩

/-- Claim C5: when the oracle outcome the run uses has `success=false` or
`authenticated=false`, the persisted result has `authorized=false` and its
name is `"unclassified"` exactly when the outcome's message contains
`"unclassified"`, else `"unknown"`; and an authenticated outcome with an
empty candidate list persists `name="unknown"`, `authorized=false`. -/
theorem claim_C5_failure_names (eventId : String) (ev : EventData) (env : Env)
    (resp : RecognitionResponse)
    (hresp : (callFacialRecognition (acquireImage ev env).2 env.oracleResult).2 = resp)
    (hts : truthyS ev.timestamp = true)
    (hsink : env.sinkOk = true) :
    (((!resp.success || !resp.authenticated) = true) →
      (processDoorbellEvent eventId ev env).written.map (fun r => r.authorized) = some false ∧
      (processDoorbellEvent eventId ev env).written.map (fun r => r.name) =
        some (if msgHasUnclassified resp.message then "unclassified" else "unknown")) ∧
    ((resp.success = true ∧ resp.authenticated = true ∧ resp.recognized_names = []) →
      (processDoorbellEvent eventId ev env).written.map (fun r => r.name) = some "unknown" ∧
      (processDoorbellEvent eventId ev env).written.map (fun r => r.authorized) = some false) := by
  rw [processDoorbellEvent_ok eventId ev env _ (actualTimestampOf_truthy ev hts)]
  constructor
  · intro h
    have hvv := validateVisitor_notAuth env.dbUp env.now env.store resp h
    by_cases hm : msgHasUnclassified resp.message
    · simp [runStages, hresp, hvv, hsink, buildFinalResult, hm,
        jsOrStr_ne "unclassified" "unknown" (by decide)]
    · simp [runStages, hresp, hvv, hsink, buildFinalResult, hm,
        jsOrStr_ne "unknown" "unknown" (by decide)]
  · rintro ⟨h1, h2, h3⟩
    have hvv := validateVisitor_noNames env.dbUp env.now env.store resp h1 h2 h3
    simp [runStages, hresp, hvv, hsink, buildFinalResult,
      jsOrStr_ne "unknown" "unknown" (by decide)]

theorem claim_C5_witness :
    ((callFacialRecognition
        (acquireImage { sampleEvent with image := none } sampleEnv).2
        sampleEnv.oracleResult).2 = noImageResponse ∧
      truthyS sampleEvent.timestamp = true) ∧
    ((processDoorbellEvent "e1" { sampleEvent with image := none } sampleEnv).written.map
        (fun r => r.authorized) = some false ∧
      (processDoorbellEvent "e1" { sampleEvent with image := none } sampleEnv).written.map
        (fun r => r.name) =
        some (if msgHasUnclassified noImageResponse.message then "unclassified" else "unknown")) :=
  ⟨⟨by decide, by decide⟩,
    (claim_C5_failure_names "e1" { sampleEvent with image := none } sampleEnv noImageResponse
      (by decide) (by decide) rfl).1 (by decide)⟩

/-- Claim C9: the Authorization Store lookup interprets each candidate as a
case-insensitive regular-expression pattern, not a literal substring: the
pattern `".*"` authorizes a visitor named `"Bob"` although the two strings
share no characters and `".*"` is not a literal substring of `"Bob"`;
matching ignores case; and a candidate that is an invalid pattern (first
conjunct, and concretely `"*"`) makes the lookup throw into the
store-unreachable fallback: first candidate name, `authorized=false`. -/
theorem claim_C9_candidate_is_regex :
    (∀ (dbUp : Bool) (now : Nat) (store : List Visitor) (r : RecognitionResponse)
        (n0 : String) (rest : List String),
      r.success = true → r.authenticated = true →
      r.recognized_names = n0 :: rest → parseRegexI n0 = none →
      validateVisitor dbUp now store r =
        (store, { isAuthorized := false, visitorName := jsOrStr n0 "unknown" })) ∧
    regexTest ".*" "Bob" = some true ∧
    includesStr "Bob" ".*" = false ∧
    (".*" : String).data.all (fun c => !(("Bob" : String).data.contains c)) = true ∧
    regexTest "ali" "ALI" = some true ∧
    validateVisitor true 7
        [{ name := "Bob", isAuthorized := true, visitCount := 0, lastVisit := none }]
        { success := true, authenticated := true, message := none,
          recognized_names := [".*"] } =
      ([{ name := "Bob", isAuthorized := true, visitCount := 1, lastVisit := some 7 }],
        { isAuthorized := true, visitorName := "Bob" }) ∧
    validateVisitor true 7
        [{ name := "Bob", isAuthorized := true, visitCount := 0, lastVisit := none }]
        { success := true, authenticated := true, message := none,
          recognized_names := ["*"] } =
      ([{ name := "Bob", isAuthorized := true, visitCount := 0, lastVisit := none }],
        { isAuthorized := false, visitorName := "*" }) := by
  refine ⟨?_, by decide, by decide, by decide, by decide, by decide, by decide⟩
  intro dbUp now store r n0 rest h1 h2 h3 hp
  simp [validateVisitor, h1, h2, h3, validateLoop_invalidHead dbUp now store n0 rest hp]

theorem claim_C9_witness :
    parseRegexI "*" = none ∧
    validateVisitor true 3 [aliVisitor]
        { success := true, authenticated := true, message := none,
          recognized_names := ["*"] } =
      ([aliVisitor], { isAuthorized := false, visitorName := jsOrStr "*" "unknown" }) :=
  ⟨by decide,
    claim_C9_candidate_is_regex.1 true 3 [aliVisitor]
      { success := true, authenticated := true, message := none, recognized_names := ["*"] }
      "*" [] rfl rfl rfl (by decide)⟩

/-- Claim C1: with a successful authenticated outcome whose candidate list
has a first authorized hit (no earlier candidate matches an authorized
visitor), the pipeline updates exactly that visitor — `visitCount`
incremented by one and `lastVisit` refreshed — and persists
`authorized=true` with the visitor's stored canonical name. -/
theorem claim_C1_first_match_wins (eventId : String) (ev : EventData) (env : Env)
    (resp : RecognitionResponse) (pre rest : List String) (n : String)
    (p : RPat) (i : Nat) (v : Visitor)
    (hts : truthyS ev.timestamp = true)
    (himg : truthyS (acquireImage ev env).2 = true)
    (hor : env.oracleResult = Except.ok resp)
    (h1 : resp.success = true) (h2 : resp.authenticated = true)
    (hnames : resp.recognized_names = pre ++ n :: rest)
    (hpre : ∀ m ∈ pre, ∃ q, parseRegexI m = some q ∧ findOneAuth env.store q = none)
    (hp : parseRegexI n = some p)
    (hf : findOneAuth env.store p = some (i, v))
    (hdb : env.dbUp = true)
    (hsink : env.sinkOk = true)
    (hvn : ¬ v.name = "") :
    (processDoorbellEvent eventId ev env).err = false ∧
    env.store[i]? = some v ∧
    (processDoorbellEvent eventId ev env).store = env.store.set i (bumpVisit env.now v) ∧
    ((processDoorbellEvent eventId ev env).store[i]?).map (fun w => w.visitCount) =
      some (v.visitCount + 1) ∧
    ((processDoorbellEvent eventId ev env).store[i]?).map (fun w => w.lastVisit) =
      some (some env.now) ∧
    (processDoorbellEvent eventId ev env).written.map (fun r => r.authorized) = some true ∧
    (processDoorbellEvent eventId ev env).written.map (fun r => r.name) = some v.name ∧
    (processDoorbellEvent eventId ev env).notified.isSome = true := by
  have hget := findOneAuth_get p env.store i v hf
  have hil : i < env.store.length := by
    by_contra hle
    rw [List.getElem?_eq_none (Nat.le_of_not_lt hle)] at hget
    exact Option.noConfusion hget
  have hset : (env.store.set i (bumpVisit env.now v))[i]? = some (bumpVisit env.now v) :=
    List.getElem?_set_eq_of_lt (bumpVisit env.now v) hil
  have hloop : validateLoop true env.now env.store (pre ++ n :: rest) =
      .ok (some (env.store.set i (bumpVisit env.now v),
        { isAuthorized := true, visitorName := v.name })) := by
    rw [validateLoop_skip env.now env.store pre (n :: rest) hpre,
      validateLoop_found env.now env.store n rest p i v hp hf]
  have hvv : validateVisitor env.dbUp env.now env.store resp =
      (env.store.set i (bumpVisit env.now v),
        { isAuthorized := true, visitorName := v.name }) := by
    rw [hdb]
    simp [validateVisitor, h1, h2, hnames, hloop]
  have hcall : callFacialRecognition (acquireImage ev env).2 env.oracleResult =
      (true, resp) := by
    rw [hor]; exact callFacialRecognition_some _ resp himg
  have hb1 : (bumpVisit env.now v).visitCount = v.visitCount + 1 := rfl
  have hb2 : (bumpVisit env.now v).lastVisit = some env.now := rfl
  rw [processDoorbellEvent_ok eventId ev env _ (actualTimestampOf_truthy ev hts)]
  simp [runStages, hcall, hvv, hsink, buildFinalResult, hget, hset, hb1, hb2,
    jsOrStr_ne v.name "unknown" hvn]

theorem claim_C1_witness :
    (sampleEnv.oracleResult = Except.ok aliResp ∧
      parseRegexI "Ali" = some [(RAtom.lit 'a', false), (RAtom.lit 'l', false),
        (RAtom.lit 'i', false)] ∧
      findOneAuth sampleEnv.store [(RAtom.lit 'a', false), (RAtom.lit 'l', false),
        (RAtom.lit 'i', false)] = some (0, aliVisitor)) ∧
    ((processDoorbellEvent "e1" sampleEvent sampleEnv).store =
        sampleEnv.store.set 0 (bumpVisit sampleEnv.now aliVisitor) ∧
      (processDoorbellEvent "e1" sampleEvent sampleEnv).written.map (fun r => r.authorized) =
        some true ∧
      (processDoorbellEvent "e1" sampleEvent sampleEnv).written.map (fun r => r.name) =
        some aliVisitor.name) :=
  ⟨⟨rfl, by decide, by decide⟩, by
    have h := claim_C1_first_match_wins "e1" sampleEvent sampleEnv aliResp [] [] "Ali"
      [(RAtom.lit 'a', false), (RAtom.lit 'l', false), (RAtom.lit 'i', false)] 0 aliVisitor
      (by decide) (by decide) rfl rfl rfl rfl (by simp) (by decide) (by decide) rfl rfl
      (by decide)
    exact ⟨h.2.2.1, h.2.2.2.2.2.1, h.2.2.2.2.2.2.1⟩⟩

end SmartGhanti
